import Mathlib

/-!
# Verification of `determineCompatibleUnits.ts`

A shallow embedding of the unit-compatibility module of the OED client
(`src/client/app/utils/determineCompatibleUnits.ts`).  The file holds two
successive revisions of the same module concatenated; where the revisions
differ, both are embedded (suffix `V2` marks the second revision).

Modelling conventions:
* JS `Set<number>` values become `Finset Int`; a JS `Set` used only for
  iteration (the meter-id argument of `unitsCompatibleWithMeters`, the deep
  meter set of a group) becomes a `List Int` recording the iteration order,
  with order-independence proved where the spec claims it.
* Redux state (`store.getState()`) becomes an explicit `AppState` snapshot
  passed to every function.
* A JS access on a failed lookup (`undefined.field`, which throws a
  `TypeError` at runtime) becomes an `Except ResolverError` error named
  after the failing lookup site.
-/

/-- `UnitType` from `types/redux/units`.  Only the distinction
`meter` vs not-`meter` is used by the module. -/
inductive UnitType where
  | meter
  | unit
  | suffix
deriving DecidableEq, Repr

/-- The fields of `UnitData` read by the module: `id`, `unitIndex`,
`typeOfUnit`. -/
structure UnitData where
  id : Int
  unitIndex : Nat
  typeOfUnit : UnitType
deriving DecidableEq, Repr

/-- The fields of `MeterData` read by the module: `id`, `unitId`,
`identifier`. -/
structure MeterData where
  id : Int
  unitId : Int
  identifier : String
deriving DecidableEq, Repr

/-- The fields of `GroupDefinition` read by the module: `id`, `name`,
`deepMeters`, `defaultGraphicUnit`. -/
structure GroupDefinition where
  id : Int
  name : String
  deepMeters : List Int
  defaultGraphicUnit : Int
deriving DecidableEq, Repr

/-- The snapshot of Redux state plus the `ConversionArray` module state that
the functions read.  `meters` and `groups` are the entry lists of the
id-keyed objects `state.meters.byMeterID` / `state.groups.byGroupID`
(lookup by id below is `List.find?` on the `id` field; `Object.values`
enumerates the same lists). -/
structure AppState where
  units : List UnitData
  meters : List MeterData
  groups : List GroupDefinition
  /-- `ConversionArray.pik`: boolean matrix, rows indexed by source
  (meter-typed) unit indices, columns by non-source unit indices. -/
  pik : List (List Bool)
  /-- `ConversionArray.pikAvailable()`. -/
  pikAvailable : Bool
deriving Repr

/-- Errors of failed lookups.  In the JS source each of these is a thrown
`TypeError` (property access on `undefined`); they are distinguished here by
the failing site.  `UnitNotFound` is a failed unit-catalog lookup in
`pRowFromUnit` or `unitFromPColumn`. -/
inductive ResolverError where
  | UnitNotFound
  | MeterNotFound
  | GroupNotFound
  /-- `pik[row]` is out of range (`pik[row][k]` on `undefined`). -/
  | PikRowMissing
deriving DecidableEq, Repr

/-- `setIntersect` (first revision, lines 21-23):
`new Set(Array.from(setA).filter(i => setB.has(i)))`. -/
def setIntersect (setA setB : Finset Int) : Finset Int :=
  setA.filter (fun i => i ∈ setB)

/-- `setIntersect` (second revision, lines 314-316), textually identical to
the first revision. -/
def setIntersectV2 (setA setB : Finset Int) : Finset Int :=
  setA.filter (fun i => i ∈ setB)

/-- `pRowFromUnit` (lines 96-103): find the unit with this id among
meter-typed units and return its `unitIndex`; a failed find is
`UnitNotFound` (the JS code reads `.unitIndex` off `undefined`). -/
def pRowFromUnit (st : AppState) (unitId : Int) : Except ResolverError Nat :=
  match st.units.find? (fun o => o.id == unitId && o.typeOfUnit == UnitType.meter) with
  | some u => .ok u.unitIndex
  | none => .error .UnitNotFound

/-- `unitFromPRow` (lines 110-117): find the meter-typed unit with this
row index and return its id. -/
def unitFromPRow (st : AppState) (row : Nat) : Except ResolverError Int :=
  match st.units.find? (fun o => o.unitIndex == row && o.typeOfUnit != UnitType.meter) with
  | some u => .ok u.id
  | none => .error .UnitNotFound

/-- `unitFromPColumn` (lines 124-131): find the unit with this column index
whose type is different from meter and return its id. -/
def unitFromPColumn (st : AppState) (column : Nat) : Except ResolverError Int :=
  match st.units.find? (fun o => o.unitIndex == column && o.typeOfUnit != UnitType.meter) with
  | some u => .ok u.id
  | none => .error .UnitNotFound

/-- The `for (let k = 0; ...)` loop of `unitsCompatibleWithUnit`, recursing
over the remaining column indices `ks`.  `r` is the row `pik[row]`;
`r.getD k false` models `pik[row][k]` (an out-of-range column reads
`undefined`, which is falsy). -/
def unitsLoop (st : AppState) (r : List Bool) (unitSet : Finset Int) :
    List Nat → Except ResolverError (Finset Int)
  | [] => .ok unitSet
  | k :: ks =>
    if r.getD k false then
      match unitFromPColumn st k with
      | .ok u => unitsLoop st r (insert u unitSet) ks
      | .error e => .error e
    else
      unitsLoop st r unitSet ks

/-- `unitsCompatibleWithUnit` (lines 67-89): empty set for the sentinel id
`-99` or when pik is unavailable; otherwise collect `unitFromPColumn k` for
every column `k < pik[0].length` with `pik[row][k]` true, where
`row = pRowFromUnit unitId`. -/
def unitsCompatibleWithUnit (st : AppState) (unitId : Int) :
    Except ResolverError (Finset Int) :=
  if unitId ≠ -99 ∧ st.pikAvailable then
    match pRowFromUnit st unitId with
    | .error e => .error e
    | .ok row =>
      match st.pik.get? row with
      | none => .error .PikRowMissing
      | some r => unitsLoop st r ∅ (List.range (st.pik.headD []).length)
  else
    .ok ∅

/-- The body of the `meters.forEach` loop of `unitsCompatibleWithMeters`
(lines 37-57) for one meter id: look the meter up in
`state.meters.byMeterID`, then its compatible units (`∅` when its unit id
is the sentinel `-99`). -/
def meterUnitsOf (st : AppState) (meterId : Int) :
    Except ResolverError (Finset Int) :=
  match st.meters.find? (fun m => m.id == meterId) with
  | none => .error .MeterNotFound
  | some meter =>
    if meter.unitId ≠ -99 then unitsCompatibleWithUnit st meter.unitId
    else .ok ∅

/-- The accumulation of `unitsCompatibleWithMeters` after the first meter
has seeded the accumulator `acc`: each further meter's compatible set is
intersected in. -/
def metersLoop (st : AppState) (acc : Finset Int) :
    List Int → Except ResolverError (Finset Int)
  | [] => .ok acc
  | meterId :: rest => do
    let meterUnits ← meterUnitsOf st meterId
    metersLoop st (setIntersect acc meterUnits) rest

/-- `unitsCompatibleWithMeters` (lines 30-60).  `meters` is the iteration
sequence of the JS `Set` argument.  The `first` flag of the source makes the
first meter's compatible set seed the accumulator; an empty input returns
the initial empty set. -/
def unitsCompatibleWithMeters (st : AppState) :
    List Int → Except ResolverError (Finset Int)
  | [] => .ok ∅
  | meterId :: rest => do
    let meterUnits ← meterUnitsOf st meterId
    metersLoop st meterUnits rest

/-- `metersInGroup` (lines 138-145): the deep meters of the group as a JS
`Set`, i.e. the `deepMeters` list with duplicates collapsed. -/
def metersInGroup (st : AppState) (groupId : Int) :
    Except ResolverError (List Int) :=
  match st.groups.find? (fun g => g.id == groupId) with
  | none => .error .GroupNotFound
  | some group => .ok group.deepMeters.dedup

/-- `GroupCase` (lines 227-232 and 574-579, identical). -/
inductive GroupCase where
  | NoChange
  | LostCompatibleUnits
  | LostDefaultGraphicUnit
  | NoCompatibleUnits
deriving DecidableEq, Repr

/-- `groupCase` (first revision, lines 273-290):
`lostUnits = currentUnits - (currentUnits ∩ newUnits)`, then the four-way
decision on `lostUnits.size`, `currentUnits.size`, and membership of the
default graphic unit. -/
def groupCase (currentUnits newUnits : Finset Int) (defaultGraphicUnit : Int) :
    GroupCase :=
  let intersection := setIntersect currentUnits newUnits
  let lostUnits := currentUnits.filter (fun x => x ∉ intersection)
  if lostUnits.card = 0 then
    .NoChange
  else if lostUnits.card = currentUnits.card then
    .NoCompatibleUnits
  else if defaultGraphicUnit ≠ -99 ∧ defaultGraphicUnit ∈ lostUnits then
    .LostDefaultGraphicUnit
  else
    .LostCompatibleUnits

/-- `groupCase` (second revision, lines 619-636), textually identical to the
first revision up to the `setIntersect` it calls. -/
def groupCaseV2 (currentUnits newUnits : Finset Int) (defaultGraphicUnit : Int) :
    GroupCase :=
  let intersection := setIntersectV2 currentUnits newUnits
  let lostUnits := currentUnits.filter (fun x => x ∉ intersection)
  if lostUnits.card = 0 then
    .NoChange
  else if lostUnits.card = currentUnits.card then
    .NoCompatibleUnits
  else if defaultGraphicUnit ≠ -99 ∧ defaultGraphicUnit ∈ lostUnits then
    .LostDefaultGraphicUnit
  else
    .LostCompatibleUnits

/-- `DataType` from `types/Datasources`. -/
inductive DataType where
  | Meter
  | Group
  | Unit
deriving DecidableEq, Repr

/-- `SelectOption` fields written by the menu builders.  `style` is the CSS
color set by the second revision (`none` models the empty style `{}`; the
first revision never sets a style). -/
structure SelectOption where
  label : String
  value : Int
  isDisabled : Bool
  style : Option String
deriving DecidableEq, Repr

/-- `getCompatibleUnits` (lines 253-265 and 600-611, identical): a meter id
resolves through its single assigned unit, anything else resolves as a
group through its deep meter set. -/
def getCompatibleUnits (st : AppState) (id : Int) (type : DataType) :
    Except ResolverError (Finset Int) :=
  if type == DataType.Meter then
    match st.meters.find? (fun m => m.id == id) with
    | none => .error .MeterNotFound
    | some m => unitsCompatibleWithUnit st m.unitId
  else do
    let dm ← metersInGroup st id
    unitsCompatibleWithMeters st dm

/-- `getCompatibilityChangeCase` (lines 241-246 and 588-593, identical). -/
def getCompatibilityChangeCase (st : AppState) (otherUnits : Finset Int)
    (id : Int) (type : DataType) (defaultGraphicUnit : Int) :
    Except ResolverError GroupCase := do
  let newUnits ← getCompatibleUnits st id type
  .ok (groupCase otherUnits newUnits defaultGraphicUnit)

/-- `getMenuOptionFont` (lines 638-653): option font color by change case;
the default branch returns the empty style. -/
def getMenuOptionFont (compatibilityChangeCase : GroupCase) : Option String :=
  match compatibilityChangeCase with
  | .NoChange => some "black"
  | .LostCompatibleUnits => some "yellow"
  | .LostDefaultGraphicUnit => some "red"
  | _ => none

/-- The `forEach`-and-push accumulation of the four menu builders: one
option per candidate in list order; a thrown error inside the JS `forEach`
aborts the whole build. -/
def buildOptions {α : Type} (f : α → Except ResolverError SelectOption) :
    List α → Except ResolverError (List SelectOption)
  | [] => .ok []
  | a :: as => do
    let o ← f a
    let os ← buildOptions f as
    .ok (o :: os)

/-- `getMeterMenuOptionsForGroup`, first revision (lines 151-182): one
option per meter, disabled exactly on `NoCompatibleUnits`; the font branch
is still a TODO, so no style is set. -/
def getMeterMenuOptionsForGroup (st : AppState) (gid : Int) :
    Except ResolverError (List SelectOption) := do
  let dm ← metersInGroup st gid
  let currentUnits ← unitsCompatibleWithMeters st dm
  let defaultGraphicUnit ←
    match st.groups.find? (fun g => g.id == gid) with
    | none => Except.error ResolverError.GroupNotFound
    | some g => Except.ok g.defaultGraphicUnit
  buildOptions (fun meter => do
    let compatibilityChangeCase ←
      getCompatibilityChangeCase st currentUnits meter.id DataType.Meter defaultGraphicUnit
    Except.ok { label := meter.identifier, value := meter.id,
                isDisabled := compatibilityChangeCase == GroupCase.NoCompatibleUnits,
                style := none }) st.meters

/-- `getGroupMenuOptionsForGroup`, first revision (lines 188-218): one
option per group.  Note the source passes `DataType.Meter` for the
candidate group id (line 207). -/
def getGroupMenuOptionsForGroup (st : AppState) (gid : Int) :
    Except ResolverError (List SelectOption) := do
  let dm ← metersInGroup st gid
  let currentUnits ← unitsCompatibleWithMeters st dm
  let defaultGraphicUnit ←
    match st.groups.find? (fun g => g.id == gid) with
    | none => Except.error ResolverError.GroupNotFound
    | some g => Except.ok g.defaultGraphicUnit
  buildOptions (fun group => do
    let compatibilityChangeCase ←
      getCompatibilityChangeCase st currentUnits group.id DataType.Meter defaultGraphicUnit
    Except.ok { label := group.name, value := group.id,
                isDisabled := compatibilityChangeCase == GroupCase.NoCompatibleUnits,
                style := none }) st.groups

/-- `getMeterMenuOptionsForGroup`, second revision (lines 444-475): as the
first revision but styling non-disabled options with `getMenuOptionFont`. -/
def getMeterMenuOptionsForGroupV2 (st : AppState) (gid : Int) :
    Except ResolverError (List SelectOption) := do
  let dm ← metersInGroup st gid
  let currentUnits ← unitsCompatibleWithMeters st dm
  let defaultGraphicUnit ←
    match st.groups.find? (fun g => g.id == gid) with
    | none => Except.error ResolverError.GroupNotFound
    | some g => Except.ok g.defaultGraphicUnit
  buildOptions (fun meter => do
    let compatibilityChangeCase ←
      getCompatibilityChangeCase st currentUnits meter.id DataType.Meter defaultGraphicUnit
    Except.ok { label := meter.identifier, value := meter.id,
                isDisabled := compatibilityChangeCase == GroupCase.NoCompatibleUnits,
                style := if compatibilityChangeCase == GroupCase.NoCompatibleUnits
                         then none else getMenuOptionFont compatibilityChangeCase }) st.meters

/-- `getGroupMenuOptionsForGroup`, second revision (lines 481-512): the
candidate group id is now classified with `DataType.Group` (line 501). -/
def getGroupMenuOptionsForGroupV2 (st : AppState) (gid : Int) :
    Except ResolverError (List SelectOption) := do
  let dm ← metersInGroup st gid
  let currentUnits ← unitsCompatibleWithMeters st dm
  let defaultGraphicUnit ←
    match st.groups.find? (fun g => g.id == gid) with
    | none => Except.error ResolverError.GroupNotFound
    | some g => Except.ok g.defaultGraphicUnit
  buildOptions (fun group => do
    let compatibilityChangeCase ←
      getCompatibilityChangeCase st currentUnits group.id DataType.Group defaultGraphicUnit
    Except.ok { label := group.name, value := group.id,
                isDisabled := compatibilityChangeCase == GroupCase.NoCompatibleUnits,
                style := if compatibilityChangeCase == GroupCase.NoCompatibleUnits
                         then none else getMenuOptionFont compatibilityChangeCase }) st.groups

/-! ## Properties of the change classifier -/

/-- `setIntersect` is `Finset` intersection. -/
theorem setIntersect_eq_inter (a b : Finset Int) : setIntersect a b = a ∩ b := by
  ext x
  simp [setIntersect]

/-- The `lostUnits` computed by `groupCase` is the set difference
`currentUnits \ (currentUnits ∩ newUnits)`. -/
theorem lostUnits_eq_sdiff (c n : Finset Int) :
    c.filter (fun x => x ∉ setIntersect c n) = c \ (c ∩ n) := by
  ext x
  simp [setIntersect, Finset.mem_sdiff]
  tauto

/-- `groupCase` agrees with the spec's decision table stated with set
difference, set emptiness and set equality in place of the source's
cardinality tests. -/
theorem groupCase_table (c n : Finset Int) (d : Int) :
    groupCase c n d =
      if c \ (c ∩ n) = ∅ then GroupCase.NoChange
      else if c \ (c ∩ n) = c then GroupCase.NoCompatibleUnits
      else if d ≠ -99 ∧ d ∈ c \ (c ∩ n) then GroupCase.LostDefaultGraphicUnit
      else GroupCase.LostCompatibleUnits := by
  have h1 : (c \ (c ∩ n)).card = 0 ↔ c \ (c ∩ n) = ∅ := Finset.card_eq_zero
  have h2 : (c \ (c ∩ n)).card = c.card ↔ c \ (c ∩ n) = c := by
    constructor
    · intro h
      exact Finset.eq_of_subset_of_card_le Finset.sdiff_subset (le_of_eq h.symm)
    · intro h
      rw [h]
  unfold groupCase
  simp only [lostUnits_eq_sdiff, h1, h2]

/-- C1: `groupCase` computes `lost = currentUnits − (currentUnits ∩ newUnits)`
and returns, by the first matching rule top to bottom: `NoChange` if `lost`
is empty; else `NoCompatibleUnits` if `lost` equals `currentUnits`; else
`LostDefaultGraphicUnit` if the default graphic unit is not the sentinel
`-99` and lies in `lost`; else `LostCompatibleUnits` — and exactly one of
the four outcomes is always produced. -/
theorem groupCase_decision_table (c n : Finset Int) (d : Int) :
    (groupCase c n d =
      if c \ (c ∩ n) = ∅ then GroupCase.NoChange
      else if c \ (c ∩ n) = c then GroupCase.NoCompatibleUnits
      else if d ≠ -99 ∧ d ∈ c \ (c ∩ n) then GroupCase.LostDefaultGraphicUnit
      else GroupCase.LostCompatibleUnits) ∧
    (groupCase c n d = GroupCase.NoChange ∨
     groupCase c n d = GroupCase.NoCompatibleUnits ∨
     groupCase c n d = GroupCase.LostDefaultGraphicUnit ∨
     groupCase c n d = GroupCase.LostCompatibleUnits) := by
  refine ⟨groupCase_table c n d, ?_⟩
  generalize groupCase c n d = g
  cases g <;> simp

/-- C4: `groupCase` returns `NoChange` iff `currentUnits ⊆ newUnits`, and
`NoCompatibleUnits` iff `currentUnits ∩ newUnits = ∅` with `currentUnits`
non-empty (total loss takes precedence over `LostDefaultGraphicUnit` even
when the default unit is among the lost units). -/
theorem groupCase_NoChange_NoCompatibleUnits_iff (c n : Finset Int) (d : Int) :
    (groupCase c n d = GroupCase.NoChange ↔ c ⊆ n) ∧
    (groupCase c n d = GroupCase.NoCompatibleUnits ↔ c ∩ n = ∅ ∧ c ≠ ∅) := by
  have e1 : c \ (c ∩ n) = c \ n := Finset.sdiff_inter_self_left c n
  have hP1 : c \ (c ∩ n) = ∅ ↔ c ⊆ n := by
    rw [e1, Finset.sdiff_eq_empty_iff_subset]
  have hP2 : c \ (c ∩ n) = c ↔ c ∩ n = ∅ := by
    rw [e1, Finset.sdiff_eq_self_iff_disjoint, Finset.disjoint_iff_inter_eq_empty]
  rw [groupCase_table]
  split_ifs with hc1 hc2 hc3
  · -- lost = ∅ : outcome NoChange
    simp only [hP1.mp hc1]
    refine ⟨by simp, ?_⟩
    constructor
    · intro h
      cases h
    · rintro ⟨hint, hne⟩
      exact absurd (hP2.mpr hint) (by
        intro heq
        exact hne (by rw [← hc1, heq]))
  · -- lost = c ≠ ∅ : outcome NoCompatibleUnits
    constructor
    · constructor
      · intro h
        cases h
      · intro hsub
        exact absurd (hP1.mpr hsub) hc1
    · have hne : c ≠ ∅ := by
        intro hce
        apply hc1
        rw [hc2, hce]
      exact ⟨fun _ => ⟨hP2.mp hc2, hne⟩, fun _ => rfl⟩
  · -- default graphic unit lost
    constructor
    · constructor
      · intro h
        cases h
      · intro hsub
        exact absurd (hP1.mpr hsub) hc1
    · constructor
      · intro h
        cases h
      · rintro ⟨hint, _⟩
        exact absurd (hP2.mpr hint) hc2
  · -- other compatible units lost
    constructor
    · constructor
      · intro h
        cases h
      · intro hsub
        exact absurd (hP1.mpr hsub) hc1
    · constructor
      · intro h
        cases h
      · rintro ⟨hint, _⟩
        exact absurd (hP2.mpr hint) hc2

/-- C9: the two successive revisions of the classifier agree — the first
`setIntersect` (lines 21-23) and the second (lines 314-316) return the same
set, and the first `groupCase` (lines 273-290) and the second (lines
619-636) return the same outcome on all inputs. -/
theorem revisions_agree :
    (∀ (a b : Finset Int), setIntersect a b = setIntersectV2 a b) ∧
    (∀ (c n : Finset Int) (d : Int), groupCase c n d = groupCaseV2 c n d) :=
  ⟨fun _ _ => rfl, fun _ _ _ => rfl⟩

/-! ## Properties of the meter-set resolver -/

deriving instance DecidableEq for Except

/-- Membership in a successful `metersLoop` run: exactly the elements of the
seed that lie in every later meter's compatible set. -/
theorem metersLoop_ok_mem (st : AppState) :
    ∀ (l : List Int) (acc s : Finset Int), metersLoop st acc l = .ok s →
      ∀ x : Int, (x ∈ s ↔ x ∈ acc ∧
        ∀ m ∈ l, ∀ u, meterUnitsOf st m = .ok u → x ∈ u) := by
  intro l
  induction l with
  | nil =>
    intro acc s h x
    simp only [metersLoop] at h
    cases h
    simp
  | cons m rest ih =>
    intro acc s h x
    simp only [metersLoop, bind, Except.bind] at h
    cases hu : meterUnitsOf st m with
    | error e => rw [hu] at h; cases h
    | ok u₁ =>
      rw [hu] at h
      have hx := ih (setIntersect acc u₁) s h x
      rw [hx, setIntersect_eq_inter]
      constructor
      · rintro ⟨hmem, hrest⟩
        rw [Finset.mem_inter] at hmem
        refine ⟨hmem.1, ?_⟩
        intro m' hm' u hu'
        rcases List.mem_cons.mp hm' with hm' | hm'
        · subst hm'
          rw [hu] at hu'
          cases hu'
          exact hmem.2
        · exact hrest m' hm' u hu'
      · rintro ⟨hmem, hall⟩
        refine ⟨Finset.mem_inter.mpr ⟨hmem, hall m (List.mem_cons_self m rest) u₁ hu⟩, ?_⟩
        intro m' hm' u hu'
        exact hall m' (List.mem_cons_of_mem m hm') u hu'

/-- A successful `metersLoop` run resolved every meter it visited. -/
theorem metersLoop_ok_resolved (st : AppState) :
    ∀ (l : List Int) (acc s : Finset Int), metersLoop st acc l = .ok s →
      ∀ m ∈ l, ∃ u, meterUnitsOf st m = .ok u := by
  intro l
  induction l with
  | nil =>
    intro acc s _ m hm
    cases hm
  | cons m₀ rest ih =>
    intro acc s h m hm
    simp only [metersLoop, bind, Except.bind] at h
    cases hu : meterUnitsOf st m₀ with
    | error e => rw [hu] at h; cases h
    | ok u₁ =>
      rw [hu] at h
      rcases List.mem_cons.mp hm with hm | hm
      · exact ⟨u₁, hm ▸ hu⟩
      · exact ih (setIntersect acc u₁) s h m hm

/-- If every meter in the list resolves, `metersLoop` succeeds. -/
theorem metersLoop_ok_of_resolved (st : AppState) :
    ∀ (l : List Int) (acc : Finset Int),
      (∀ m ∈ l, ∃ u, meterUnitsOf st m = .ok u) →
      ∃ s, metersLoop st acc l = .ok s := by
  intro l
  induction l with
  | nil =>
    intro acc _
    exact ⟨acc, rfl⟩
  | cons m₀ rest ih =>
    intro acc hall
    rcases hall m₀ (List.mem_cons_self m₀ rest) with ⟨u₁, hu₁⟩
    rcases ih (setIntersect acc u₁) (fun m hm => hall m (List.mem_cons_of_mem m₀ hm)) with ⟨s, hs⟩
    refine ⟨s, ?_⟩
    simp only [metersLoop, bind, Except.bind, hu₁]
    exact hs

/-- Membership in a successful `unitsCompatibleWithMeters` run: the
intersection over all meters of their compatible sets (empty when the meter
list is empty). -/
theorem unitsCompatibleWithMeters_ok_mem (st : AppState) (l : List Int)
    (s : Finset Int) (h : unitsCompatibleWithMeters st l = .ok s) (x : Int) :
    x ∈ s ↔ l ≠ [] ∧ ∀ m ∈ l, ∀ u, meterUnitsOf st m = .ok u → x ∈ u := by
  cases l with
  | nil =>
    simp only [unitsCompatibleWithMeters] at h
    cases h
    simp
  | cons m rest =>
    simp only [unitsCompatibleWithMeters, bind, Except.bind] at h
    cases hu : meterUnitsOf st m with
    | error e => rw [hu] at h; cases h
    | ok u₁ =>
      rw [hu] at h
      have hx := metersLoop_ok_mem st rest u₁ s h x
      rw [hx]
      constructor
      · rintro ⟨hmem, hrest⟩
        refine ⟨List.cons_ne_nil m rest, ?_⟩
        intro m' hm' u hu'
        rcases List.mem_cons.mp hm' with hm' | hm'
        · subst hm'
          rw [hu] at hu'
          cases hu'
          exact hmem
        · exact hrest m' hm' u hu'
      · rintro ⟨-, hall⟩
        exact ⟨hall m (List.mem_cons_self m rest) u₁ hu,
          fun m' hm' u hu' => hall m' (List.mem_cons_of_mem m hm') u hu'⟩

/-- A successful `unitsCompatibleWithMeters` run resolved every meter. -/
theorem unitsCompatibleWithMeters_ok_resolved (st : AppState) (l : List Int)
    (s : Finset Int) (h : unitsCompatibleWithMeters st l = .ok s) :
    ∀ m ∈ l, ∃ u, meterUnitsOf st m = .ok u := by
  cases l with
  | nil =>
    intro m hm
    cases hm
  | cons m₀ rest =>
    intro m hm
    simp only [unitsCompatibleWithMeters, bind, Except.bind] at h
    cases hu : meterUnitsOf st m₀ with
    | error e => rw [hu] at h; cases h
    | ok u₁ =>
      rw [hu] at h
      rcases List.mem_cons.mp hm with hm | hm
      · exact ⟨u₁, hm ▸ hu⟩
      · exact metersLoop_ok_resolved st rest u₁ s h m hm

/-- If every meter in the list resolves, `unitsCompatibleWithMeters`
succeeds. -/
theorem unitsCompatibleWithMeters_ok_of_resolved (st : AppState) (l : List Int)
    (hall : ∀ m ∈ l, ∃ u, meterUnitsOf st m = .ok u) :
    ∃ s, unitsCompatibleWithMeters st l = .ok s := by
  cases l with
  | nil => exact ⟨∅, rfl⟩
  | cons m₀ rest =>
    rcases hall m₀ (List.mem_cons_self m₀ rest) with ⟨u₁, hu₁⟩
    rcases metersLoop_ok_of_resolved st rest u₁
      (fun m hm => hall m (List.mem_cons_of_mem m₀ hm)) with ⟨s, hs⟩
    refine ⟨s, ?_⟩
    simp only [unitsCompatibleWithMeters, bind, Except.bind, hu₁]
    exact hs

/-- A small concrete snapshot: meter-typed unit 1 (row 0) converts to
non-meter unit 2 (column 0); meter 10 carries unit 1, meter 11 carries the
sentinel unit `-99`. -/
def exampleStateA : AppState :=
  { units := [⟨1, 0, UnitType.meter⟩, ⟨2, 0, UnitType.unit⟩],
    meters := [⟨10, 1, "m10"⟩, ⟨11, -99, "m11"⟩],
    groups := [],
    pik := [[true]],
    pikAvailable := true }

/-- C3 counterexample: monotonicity `A ⊆ B → U(B) ⊆ U(A)` fails when `A` is
empty, because `unitsCompatibleWithMeters` of the empty meter set is the
empty set while `U(B)` need not be empty: in `exampleStateA`, with `A = ∅`
and `B = {10}`, `U(B) = {2} ⊄ ∅ = U(A)`. -/
theorem unitsCompatibleWithMeters_not_monotone :
    ¬ (∀ (st : AppState) (A B : List Int), (∀ m ∈ A, m ∈ B) →
        ∀ sA sB, unitsCompatibleWithMeters st A = .ok sA →
          unitsCompatibleWithMeters st B = .ok sB → sB ⊆ sA) := by
  intro h
  have hsub := h exampleStateA [] [10] (by intro m hm; cases hm) ∅ {2}
    (by decide) (by decide)
  exact absurd (hsub (by decide : (2 : Int) ∈ ({2} : Finset Int)))
    (by decide : ¬ (2 : Int) ∈ (∅ : Finset Int))

/-- C3 (amended): for meter lists `A ⊆ B` with `A` non-empty,
`unitsCompatibleWithMeters(B) ⊆ unitsCompatibleWithMeters(A)` whenever both
runs succeed. -/
theorem unitsCompatibleWithMeters_antitone (st : AppState) (A B : List Int)
    (hne : A ≠ []) (hsub : ∀ m ∈ A, m ∈ B) (sA sB : Finset Int)
    (hA : unitsCompatibleWithMeters st A = .ok sA)
    (hB : unitsCompatibleWithMeters st B = .ok sB) : sB ⊆ sA := by
  intro x hx
  have hxB := (unitsCompatibleWithMeters_ok_mem st B sB hB x).mp hx
  exact (unitsCompatibleWithMeters_ok_mem st A sA hA x).mpr
    ⟨hne, fun m hm u hu => hxB.2 m (hsub m hm) u hu⟩

theorem unitsCompatibleWithMeters_antitone_witness :
    ({2} : Finset Int) ⊆ {2} :=
  unitsCompatibleWithMeters_antitone exampleStateA [10] [10, 10]
    (by decide) (by intro m hm; simp at hm; simp [hm]) {2} {2}
    (by decide) (by decide)

/-- C5: `unitsCompatibleWithMeters` seeds the fold with the first meter's
compatible set: the empty meter list yields the empty set; a singleton `[m]`
yields `unitsCompatibleWithUnit` of `m`'s assigned unit; a meter with the
sentinel unit `-99` contributes the empty set, so any successful aggregate
containing it is empty; and the successful result is the intersection over
all meters of their compatible sets, independent of iteration order. -/
theorem unitsCompatibleWithMeters_fold_spec (st : AppState) :
    (unitsCompatibleWithMeters st [] = .ok ∅) ∧
    (∀ (m : Int) (meter : MeterData),
      st.meters.find? (fun x => x.id == m) = some meter →
      unitsCompatibleWithMeters st [m] = unitsCompatibleWithUnit st meter.unitId) ∧
    (∀ (l : List Int) (s : Finset Int) (m : Int) (meter : MeterData),
      unitsCompatibleWithMeters st l = .ok s → m ∈ l →
      st.meters.find? (fun x => x.id == m) = some meter → meter.unitId = -99 →
      s = ∅) ∧
    (∀ (l : List Int) (s : Finset Int), unitsCompatibleWithMeters st l = .ok s →
      ∀ x : Int, (x ∈ s ↔ l ≠ [] ∧
        ∀ m ∈ l, ∀ u, meterUnitsOf st m = .ok u → x ∈ u)) ∧
    (∀ (l l' : List Int) (s : Finset Int), l.Perm l' →
      unitsCompatibleWithMeters st l = .ok s →
      unitsCompatibleWithMeters st l' = .ok s) := by
  have hsingle : ∀ m : Int, unitsCompatibleWithMeters st [m] = meterUnitsOf st m := by
    intro m
    simp only [unitsCompatibleWithMeters]
    cases he : meterUnitsOf st m <;> simp [metersLoop, bind, Except.bind, he]
  refine ⟨rfl, ?_, ?_, unitsCompatibleWithMeters_ok_mem st, ?_⟩
  · -- singleton
    intro m meter hfind
    rw [hsingle m]
    simp only [meterUnitsOf, hfind]
    by_cases hid : meter.unitId = -99
    · rw [if_neg (by simp [hid]), hid]
      simp [unitsCompatibleWithUnit]
    · rw [if_pos hid]
  · -- sentinel meter absorbs
    intro l s m meter h hm hfind hsent
    have hmeter : meterUnitsOf st m = .ok ∅ := by
      simp [meterUnitsOf, hfind, hsent]
    ext x
    simp only [Finset.not_mem_empty, iff_false]
    intro hx
    exact absurd ((unitsCompatibleWithMeters_ok_mem st l s h x).mp hx).2 (by
      intro hall
      exact absurd (hall m hm ∅ hmeter) (Finset.not_mem_empty x))
  · -- permutation invariance
    intro l l' s hp h
    have hres : ∀ m ∈ l', ∃ u, meterUnitsOf st m = .ok u := by
      intro m hm
      exact unitsCompatibleWithMeters_ok_resolved st l s h m (hp.mem_iff.mpr hm)
    rcases unitsCompatibleWithMeters_ok_of_resolved st l' hres with ⟨s', hs'⟩
    have hnil : l = [] ↔ l' = [] := by
      rw [← List.length_eq_zero, ← List.length_eq_zero, hp.length_eq]
    have hss : s' = s := by
      ext x
      rw [unitsCompatibleWithMeters_ok_mem st l' s' hs' x,
        unitsCompatibleWithMeters_ok_mem st l s h x]
      constructor
      · rintro ⟨hne, hall⟩
        exact ⟨fun hc => hne (hnil.mp hc), fun m hm u hu => hall m (hp.mem_iff.mp hm) u hu⟩
      · rintro ⟨hne, hall⟩
        exact ⟨fun hc => hne (hnil.mpr hc), fun m hm u hu => hall m (hp.mem_iff.mpr hm) u hu⟩
    rw [← hss]
    exact hs'

theorem unitsCompatibleWithMeters_fold_spec_witness :
    unitsCompatibleWithMeters exampleStateA [10] =
      unitsCompatibleWithUnit exampleStateA 1 ∧
    (∅ : Finset Int) = ∅ ∧
    unitsCompatibleWithMeters exampleStateA [10, 11] = .ok ∅ :=
  ⟨(unitsCompatibleWithMeters_fold_spec exampleStateA).2.1 10 ⟨10, 1, "m10"⟩ (by decide),
   (unitsCompatibleWithMeters_fold_spec exampleStateA).2.2.1 [11] ∅ 11 ⟨11, -99, "m11"⟩
     (by decide) (by decide) (by decide) (by decide),
   (unitsCompatibleWithMeters_fold_spec exampleStateA).2.2.2.2 [11, 10] [10, 11] ∅
     (List.Perm.swap 10 11 []) (by decide)⟩

/-! ## Properties of the unit compatibility resolver -/

/-- The only error `unitFromPColumn` can produce is `UnitNotFound`. -/
theorem unitFromPColumn_error_eq (st : AppState) (k : Nat) (e : ResolverError)
    (h : unitFromPColumn st k = .error e) : e = ResolverError.UnitNotFound := by
  unfold unitFromPColumn at h
  cases hf : st.units.find? (fun o => o.unitIndex == k && o.typeOfUnit != UnitType.meter) with
  | none => rw [hf] at h; cases h; rfl
  | some u => rw [hf] at h; cases h

/-- A successful column of `unitsLoop` contributes only unit ids obtained
through `unitFromPColumn`: every member of the result is either in the seed
or resolved from some visited column. -/
theorem unitsLoop_ok_mem (st : AppState) (r : List Bool) :
    ∀ (ks : List Nat) (acc s : Finset Int), unitsLoop st r acc ks = .ok s →
      ∀ x ∈ s, x ∈ acc ∨ ∃ k ∈ ks, r.getD k false = true ∧ unitFromPColumn st k = .ok x := by
  intro ks
  induction ks with
  | nil =>
    intro acc s h x hx
    cases h
    exact Or.inl hx
  | cons k₀ ks ih =>
    intro acc s h x hx
    simp only [unitsLoop] at h
    by_cases hk : r.getD k₀ false
    · rw [if_pos hk] at h
      cases hcol : unitFromPColumn st k₀ with
      | error e => rw [hcol] at h; cases h
      | ok u =>
        rw [hcol] at h
        rcases ih (insert u acc) s h x hx with hmem | ⟨k, hk', hc', ho'⟩
        · rcases Finset.mem_insert.mp hmem with hxu | hxa
          · exact Or.inr ⟨k₀, List.mem_cons_self k₀ ks, hk, hxu ▸ hcol⟩
          · exact Or.inl hxa
        · exact Or.inr ⟨k, List.mem_cons_of_mem k₀ hk', hc', ho'⟩
    · rw [if_neg hk] at h
      rcases ih acc s h x hx with hmem | ⟨k, hk', hc', ho'⟩
      · exact Or.inl hmem
      · exact Or.inr ⟨k, List.mem_cons_of_mem k₀ hk', hc', ho'⟩

/-- `unitsLoop` fails with `UnitNotFound` as soon as some visited true
column resolves to no unit. -/
theorem unitsLoop_error_of_missing (st : AppState) (r : List Bool) :
    ∀ (ks : List Nat) (acc : Finset Int),
      (∃ k ∈ ks, r.getD k false = true ∧
        unitFromPColumn st k = .error ResolverError.UnitNotFound) →
      unitsLoop st r acc ks = .error ResolverError.UnitNotFound := by
  intro ks
  induction ks with
  | nil =>
    rintro acc ⟨k, hk, -, -⟩
    cases hk
  | cons k₀ ks ih =>
    rintro acc ⟨k, hk, hc, he⟩
    simp only [unitsLoop]
    by_cases hk₀ : r.getD k₀ false
    · rw [if_pos hk₀]
      cases hcol : unitFromPColumn st k₀ with
      | error e =>
        rw [unitFromPColumn_error_eq st k₀ e hcol]
      | ok u =>
        apply ih
        rcases List.mem_cons.mp hk with hk | hk
        · rw [hk] at he
          rw [he] at hcol
          cases hcol
        · exact ⟨k, hk, hc, he⟩
    · rw [if_neg hk₀]
      apply ih
      rcases List.mem_cons.mp hk with hk | hk
      · rw [hk] at hc
        exact absurd hc hk₀
      · exact ⟨k, hk, hc, he⟩

/-- C6: `unitsCompatibleWithUnit` returns the empty set, with no error,
whenever the unit id is the sentinel `-99` or the compatibility relation is
not yet available, regardless of any other state. -/
theorem unitsCompatibleWithUnit_sentinel_or_unready (st : AppState) (u : Int)
    (h : u = -99 ∨ st.pikAvailable = false) :
    unitsCompatibleWithUnit st u = .ok ∅ := by
  unfold unitsCompatibleWithUnit
  rcases h with h | h
  · rw [if_neg (fun hc => hc.1 h)]
  · rw [if_neg (fun hc => by rw [h] at hc; exact Bool.false_ne_true hc.2)]

theorem unitsCompatibleWithUnit_sentinel_or_unready_witness :
    unitsCompatibleWithUnit exampleStateA (-99) = .ok ∅ :=
  unitsCompatibleWithUnit_sentinel_or_unready exampleStateA (-99) (Or.inl rfl)

/-- A concrete snapshot with a broken unit catalog: meter-typed unit 1 sits
at row 0, the relation marks column 0 compatible, but no non-meter-typed
unit exists at column 0, and unit 5 is absent altogether. -/
def exampleStateB : AppState :=
  { units := [⟨1, 0, UnitType.meter⟩],
    meters := [⟨12, 1, "m12"⟩],
    groups := [],
    pik := [[true]],
    pikAvailable := true }

/-- C7: for a non-sentinel unit id with the relation available, a unit id
missing from the source-typed units of the catalog, or a true relation
column mapping to no non-source-typed unit, makes the resolver fail with
the distinct error `UnitNotFound`; the error also propagates through the
per-meter resolution step rather than being swallowed. -/
theorem unitsCompatibleWithUnit_UnitNotFound (st : AppState) (u : Int)
    (hu : u ≠ -99) (hpik : st.pikAvailable = true) :
    (st.units.find? (fun o => o.id == u && o.typeOfUnit == UnitType.meter) = none →
      unitsCompatibleWithUnit st u = .error ResolverError.UnitNotFound) ∧
    (∀ (w : UnitData) (r : List Bool),
      st.units.find? (fun o => o.id == u && o.typeOfUnit == UnitType.meter) = some w →
      st.pik.get? w.unitIndex = some r →
      (∃ k, k ∈ List.range (st.pik.headD []).length ∧ r.getD k false = true ∧
        st.units.find? (fun o => o.unitIndex == k && o.typeOfUnit != UnitType.meter) = none) →
      unitsCompatibleWithUnit st u = .error ResolverError.UnitNotFound) ∧
    (∀ (m : Int) (meter : MeterData),
      st.meters.find? (fun x => x.id == m) = some meter → meter.unitId = u →
      unitsCompatibleWithUnit st u = .error ResolverError.UnitNotFound →
      meterUnitsOf st m = .error ResolverError.UnitNotFound) := by
  have hcond : u ≠ -99 ∧ st.pikAvailable := ⟨hu, by rw [hpik]⟩
  refine ⟨?_, ?_, ?_⟩
  · intro hnone
    unfold unitsCompatibleWithUnit
    rw [if_pos hcond]
    unfold pRowFromUnit
    rw [hnone]
  · intro w r hfind hrow hmissing
    unfold unitsCompatibleWithUnit
    rw [if_pos hcond]
    unfold pRowFromUnit
    rw [hfind]
    show (match st.pik.get? w.unitIndex with
          | none => Except.error ResolverError.PikRowMissing
          | some r => unitsLoop st r ∅ (List.range (st.pik.headD []).length)) =
        Except.error ResolverError.UnitNotFound
    rw [hrow]
    apply unitsLoop_error_of_missing
    rcases hmissing with ⟨k, hk, hc, hnone⟩
    refine ⟨k, hk, hc, ?_⟩
    unfold unitFromPColumn
    rw [hnone]
  · intro m meter hfind hunit herr
    unfold meterUnitsOf
    rw [hfind]
    show (if meter.unitId ≠ -99 then unitsCompatibleWithUnit st meter.unitId
          else Except.ok ∅) = Except.error ResolverError.UnitNotFound
    rw [hunit, if_pos hu]
    exact herr

theorem unitsCompatibleWithUnit_UnitNotFound_witness :
    unitsCompatibleWithUnit exampleStateB 5 = .error ResolverError.UnitNotFound ∧
    unitsCompatibleWithUnit exampleStateB 1 = .error ResolverError.UnitNotFound ∧
    meterUnitsOf exampleStateB 12 = .error ResolverError.UnitNotFound := by
  have h5 := unitsCompatibleWithUnit_UnitNotFound exampleStateB 5 (by decide) rfl
  have h1 := unitsCompatibleWithUnit_UnitNotFound exampleStateB 1 (by decide) rfl
  have hcol := h1.2.1 ⟨1, 0, UnitType.meter⟩ [true] (by decide) rfl
    ⟨0, by decide, rfl, by decide⟩
  exact ⟨h5.1 (by decide), hcol, h1.2.2 12 ⟨12, 1, "m12"⟩ (by decide) rfl hcol⟩

/-- C10: every element of a set returned by `unitsCompatibleWithUnit` is
the id of a catalog unit whose type is not the source (meter) type, because
column indices are mapped back only through units with `typeOfUnit`
different from meter. -/
theorem unitsCompatibleWithUnit_mem_nonMeter (st : AppState) (u : Int)
    (s : Finset Int) (h : unitsCompatibleWithUnit st u = .ok s) :
    ∀ x ∈ s, ∃ o ∈ st.units, o.id = x ∧ o.typeOfUnit ≠ UnitType.meter := by
  intro x hx
  unfold unitsCompatibleWithUnit at h
  by_cases hcond : u ≠ -99 ∧ st.pikAvailable
  · rw [if_pos hcond] at h
    cases hrow : pRowFromUnit st u with
    | error e => rw [hrow] at h; cases h
    | ok row =>
      rw [hrow] at h
      change (match st.pik.get? row with
              | none => Except.error ResolverError.PikRowMissing
              | some r => unitsLoop st r ∅ (List.range (st.pik.headD []).length)) =
          Except.ok s at h
      cases hr : st.pik.get? row with
      | none => rw [hr] at h; cases h
      | some r =>
        rw [hr] at h
        rcases unitsLoop_ok_mem st r (List.range (st.pik.headD []).length) ∅ s h x hx with
          hmem | ⟨k, -, -, hok⟩
        · exact absurd hmem (Finset.not_mem_empty x)
        · unfold unitFromPColumn at hok
          cases hf : st.units.find?
              (fun o => o.unitIndex == k && o.typeOfUnit != UnitType.meter) with
          | none => rw [hf] at hok; cases hok
          | some o =>
            rw [hf] at hok
            cases hok
            have hp := List.find?_some hf
            simp only [Bool.and_eq_true, bne_iff_ne, ne_eq] at hp
            exact ⟨o, List.mem_of_find?_eq_some hf, rfl, hp.2⟩
  · rw [if_neg hcond] at h
    cases h
    exact absurd hx (Finset.not_mem_empty x)

theorem unitsCompatibleWithUnit_mem_nonMeter_witness :
    ∃ o ∈ exampleStateA.units, o.id = 2 ∧ o.typeOfUnit ≠ UnitType.meter :=
  unitsCompatibleWithUnit_mem_nonMeter exampleStateA 1 {2} (by decide) 2 (by decide)

/-! ## Properties of the menu builders -/

/-- Every option of a successful `buildOptions` run comes from some
candidate of the list. -/
theorem buildOptions_ok_mem {α : Type} (f : α → Except ResolverError SelectOption) :
    ∀ (l : List α) (out : List SelectOption), buildOptions f l = .ok out →
      ∀ o ∈ out, ∃ x ∈ l, f x = .ok o := by
  intro l
  induction l with
  | nil =>
    intro out h o ho
    cases h
    cases ho
  | cons a as ih =>
    intro out h o ho
    simp only [buildOptions, bind, Except.bind] at h
    cases hfa : f a with
    | error e =>
      rw [hfa] at h
      exact Except.noConfusion h
    | ok oa =>
      rw [hfa] at h
      cases hrest : buildOptions f as with
      | error e =>
        rw [hrest] at h
        exact Except.noConfusion h
      | ok os =>
        rw [hrest] at h
        have hout : oa :: os = out := Except.ok.inj h
        subst hout
        rcases List.mem_cons.mp ho with ho | ho
        · exact ⟨a, List.mem_cons_self a as, ho ▸ hfa⟩
        · rcases ih os hrest o ho with ⟨x, hx, hfx⟩
          exact ⟨x, List.mem_cons_of_mem a hx, hfx⟩

/-- Shape of one successful option body shared by all four menu builders:
the classifier ran, the option carries the candidate id, and its
`isDisabled` flag is set exactly on `NoCompatibleUnits`. -/
theorem optionOf_ok (st : AppState) (cu : Finset Int) (cid : Int) (ty : DataType)
    (dgu : Int) (lb : String) (sty : GroupCase → Option String) (o : SelectOption)
    (h : (do
        let compatibilityChangeCase ← getCompatibilityChangeCase st cu cid ty dgu
        Except.ok ({ label := lb, value := cid,
                     isDisabled := compatibilityChangeCase == GroupCase.NoCompatibleUnits,
                     style := sty compatibilityChangeCase } : SelectOption)) = .ok o) :
    ∃ c, getCompatibilityChangeCase st cu cid ty dgu = .ok c ∧ o.value = cid ∧
      (o.isDisabled = true ↔ c = GroupCase.NoCompatibleUnits) := by
  cases hc : getCompatibilityChangeCase st cu cid ty dgu with
  | error e =>
    simp only [bind, Except.bind, hc] at h
    exact Except.noConfusion h
  | ok c =>
    simp only [bind, Except.bind, hc] at h
    have heq := Except.ok.inj h
    refine ⟨c, rfl, ?_, ?_⟩
    · rw [← heq]
    · rw [← heq]
      simp

/-- The context every menu builder computes before its candidate loop: the
group's deep meters, the baseline compatible units, and the group's
default graphic unit. -/
def menuContext (st : AppState) (gid : Int) (currentUnits : Finset Int)
    (dgu : Int) : Prop :=
  ∃ dm g, metersInGroup st gid = .ok dm ∧
    unitsCompatibleWithMeters st dm = .ok currentUnits ∧
    st.groups.find? (fun x => x.id == gid) = some g ∧ dgu = g.defaultGraphicUnit

/-- C8: in every option emitted by the meter menu and the group menu (both
revisions), `isDisabled = true` holds if and only if the classifier's
outcome for that candidate, against the menu's baseline units and default
graphic unit, is `NoCompatibleUnits`. -/
theorem menus_disable_iff_NoCompatibleUnits (st : AppState) (gid : Int) :
    (∀ opts, getMeterMenuOptionsForGroup st gid = .ok opts → ∀ o ∈ opts,
      ∃ (cu : Finset Int) (dgu : Int) (meter : MeterData) (c : GroupCase),
        menuContext st gid cu dgu ∧ meter ∈ st.meters ∧ o.value = meter.id ∧
        getCompatibilityChangeCase st cu meter.id DataType.Meter dgu = .ok c ∧
        (o.isDisabled = true ↔ c = GroupCase.NoCompatibleUnits)) ∧
    (∀ opts, getGroupMenuOptionsForGroup st gid = .ok opts → ∀ o ∈ opts,
      ∃ (cu : Finset Int) (dgu : Int) (group : GroupDefinition) (c : GroupCase),
        menuContext st gid cu dgu ∧ group ∈ st.groups ∧ o.value = group.id ∧
        getCompatibilityChangeCase st cu group.id DataType.Meter dgu = .ok c ∧
        (o.isDisabled = true ↔ c = GroupCase.NoCompatibleUnits)) ∧
    (∀ opts, getMeterMenuOptionsForGroupV2 st gid = .ok opts → ∀ o ∈ opts,
      ∃ (cu : Finset Int) (dgu : Int) (meter : MeterData) (c : GroupCase),
        menuContext st gid cu dgu ∧ meter ∈ st.meters ∧ o.value = meter.id ∧
        getCompatibilityChangeCase st cu meter.id DataType.Meter dgu = .ok c ∧
        (o.isDisabled = true ↔ c = GroupCase.NoCompatibleUnits)) ∧
    (∀ opts, getGroupMenuOptionsForGroupV2 st gid = .ok opts → ∀ o ∈ opts,
      ∃ (cu : Finset Int) (dgu : Int) (group : GroupDefinition) (c : GroupCase),
        menuContext st gid cu dgu ∧ group ∈ st.groups ∧ o.value = group.id ∧
        getCompatibilityChangeCase st cu group.id DataType.Group dgu = .ok c ∧
        (o.isDisabled = true ↔ c = GroupCase.NoCompatibleUnits)) := by
  refine ⟨?_, ?_, ?_, ?_⟩
  · intro opts h o ho
    cases hdm : metersInGroup st gid with
    | error e =>
      simp only [getMeterMenuOptionsForGroup, bind, Except.bind, hdm] at h
      exact Except.noConfusion h
    | ok dm =>
      simp only [getMeterMenuOptionsForGroup, bind, Except.bind, hdm] at h
      cases hcu : unitsCompatibleWithMeters st dm with
      | error e =>
        simp only [hcu] at h
        exact Except.noConfusion h
      | ok cu =>
        simp only [hcu] at h
        cases hgf : st.groups.find? (fun x => x.id == gid) with
        | none =>
          simp only [hgf] at h
          exact Except.noConfusion h
        | some g =>
          simp only [hgf] at h
          rcases buildOptions_ok_mem _ _ _ h o ho with ⟨meter, hmem, hf⟩
          rcases optionOf_ok st cu meter.id DataType.Meter g.defaultGraphicUnit
            meter.identifier (fun _ => none) o hf with ⟨c, hc, hval, hiff⟩
          exact ⟨cu, g.defaultGraphicUnit, meter, c, ⟨dm, g, hdm, hcu, hgf, rfl⟩,
            hmem, hval, hc, hiff⟩
  · intro opts h o ho
    cases hdm : metersInGroup st gid with
    | error e =>
      simp only [getGroupMenuOptionsForGroup, bind, Except.bind, hdm] at h
      exact Except.noConfusion h
    | ok dm =>
      simp only [getGroupMenuOptionsForGroup, bind, Except.bind, hdm] at h
      cases hcu : unitsCompatibleWithMeters st dm with
      | error e =>
        simp only [hcu] at h
        exact Except.noConfusion h
      | ok cu =>
        simp only [hcu] at h
        cases hgf : st.groups.find? (fun x => x.id == gid) with
        | none =>
          simp only [hgf] at h
          exact Except.noConfusion h
        | some g =>
          simp only [hgf] at h
          rcases buildOptions_ok_mem _ _ _ h o ho with ⟨group, hmem, hf⟩
          rcases optionOf_ok st cu group.id DataType.Meter g.defaultGraphicUnit
            group.name (fun _ => none) o hf with ⟨c, hc, hval, hiff⟩
          exact ⟨cu, g.defaultGraphicUnit, group, c, ⟨dm, g, hdm, hcu, hgf, rfl⟩,
            hmem, hval, hc, hiff⟩
  · intro opts h o ho
    cases hdm : metersInGroup st gid with
    | error e =>
      simp only [getMeterMenuOptionsForGroupV2, bind, Except.bind, hdm] at h
      exact Except.noConfusion h
    | ok dm =>
      simp only [getMeterMenuOptionsForGroupV2, bind, Except.bind, hdm] at h
      cases hcu : unitsCompatibleWithMeters st dm with
      | error e =>
        simp only [hcu] at h
        exact Except.noConfusion h
      | ok cu =>
        simp only [hcu] at h
        cases hgf : st.groups.find? (fun x => x.id == gid) with
        | none =>
          simp only [hgf] at h
          exact Except.noConfusion h
        | some g =>
          simp only [hgf] at h
          rcases buildOptions_ok_mem _ _ _ h o ho with ⟨meter, hmem, hf⟩
          rcases optionOf_ok st cu meter.id DataType.Meter g.defaultGraphicUnit
            meter.identifier
            (fun c => if c == GroupCase.NoCompatibleUnits then none
                      else getMenuOptionFont c) o hf with ⟨c, hc, hval, hiff⟩
          exact ⟨cu, g.defaultGraphicUnit, meter, c, ⟨dm, g, hdm, hcu, hgf, rfl⟩,
            hmem, hval, hc, hiff⟩
  · intro opts h o ho
    cases hdm : metersInGroup st gid with
    | error e =>
      simp only [getGroupMenuOptionsForGroupV2, bind, Except.bind, hdm] at h
      exact Except.noConfusion h
    | ok dm =>
      simp only [getGroupMenuOptionsForGroupV2, bind, Except.bind, hdm] at h
      cases hcu : unitsCompatibleWithMeters st dm with
      | error e =>
        simp only [hcu] at h
        exact Except.noConfusion h
      | ok cu =>
        simp only [hcu] at h
        cases hgf : st.groups.find? (fun x => x.id == gid) with
        | none =>
          simp only [hgf] at h
          exact Except.noConfusion h
        | some g =>
          simp only [hgf] at h
          rcases buildOptions_ok_mem _ _ _ h o ho with ⟨group, hmem, hf⟩
          rcases optionOf_ok st cu group.id DataType.Group g.defaultGraphicUnit
            group.name
            (fun c => if c == GroupCase.NoCompatibleUnits then none
                      else getMenuOptionFont c) o hf with ⟨c, hc, hval, hiff⟩
          exact ⟨cu, g.defaultGraphicUnit, group, c, ⟨dm, g, hdm, hcu, hgf, rfl⟩,
            hmem, hval, hc, hiff⟩

/-- A concrete snapshot with a meter and a group sharing id 2: meter-typed
units 1 (row 0) and 2 (row 1) convert to the non-meter units 3 (column 0)
and 4 (column 1) respectively; meter 1 carries unit 1, meter 2 carries
unit 2; groups 1 and 2 both contain exactly meter 1 deep down. -/
def exampleStateC : AppState :=
  { units := [⟨1, 0, UnitType.meter⟩, ⟨2, 1, UnitType.meter⟩,
              ⟨3, 0, UnitType.unit⟩, ⟨4, 1, UnitType.unit⟩],
    meters := [⟨1, 1, "mA"⟩, ⟨2, 2, "mB"⟩],
    groups := [⟨1, "g1", [1], -99⟩, ⟨2, "g2", [1], -99⟩],
    pik := [[true, false], [false, true]],
    pikAvailable := true }

theorem menus_disable_iff_NoCompatibleUnits_witness :
    ∃ (cu : Finset Int) (dgu : Int) (meter : MeterData) (c : GroupCase),
      menuContext exampleStateC 1 cu dgu ∧ meter ∈ exampleStateC.meters ∧
      (SelectOption.mk "mB" 2 true none).value = meter.id ∧
      getCompatibilityChangeCase exampleStateC cu meter.id DataType.Meter dgu = .ok c ∧
      ((SelectOption.mk "mB" 2 true none).isDisabled = true ↔
        c = GroupCase.NoCompatibleUnits) :=
  (menus_disable_iff_NoCompatibleUnits exampleStateC 1).1
    [⟨"mA", 1, false, none⟩, ⟨"mB", 2, true, none⟩] (by decide)
    ⟨"mB", 2, true, none⟩ (by decide)

/-- C2: the classifier's candidate resolution is by declared type — a meter
candidate through its single assigned unit, a group candidate through its
deep meter set — but the first revision of `getGroupMenuOptionsForGroup`
(line 207) passes `DataType.Meter` for its group candidates.  In
`exampleStateC`, candidate group 2 resolved as a group keeps all of group
1's compatible units (`NoChange`), yet the first-revision group menu
resolves id 2 as a meter (compatible units `{4}`) and emits the option
disabled; the second revision (line 501) resolves it as a group and does
not disable it. -/
theorem getGroupMenuOptionsForGroup_resolves_group_as_meter :
    getCompatibleUnits exampleStateC 2 DataType.Group = .ok {3} ∧
    getCompatibleUnits exampleStateC 2 DataType.Meter = .ok {4} ∧
    getCompatibilityChangeCase exampleStateC {3} 2 DataType.Group (-99) =
      .ok GroupCase.NoChange ∧
    getGroupMenuOptionsForGroup exampleStateC 1 =
      .ok [⟨"g1", 1, false, none⟩, ⟨"g2", 2, true, none⟩] ∧
    getGroupMenuOptionsForGroupV2 exampleStateC 1 =
      .ok [⟨"g1", 1, false, some "black"⟩, ⟨"g2", 2, false, some "black"⟩] :=
  ⟨by decide, by decide, by decide, by decide, by decide⟩
